import Mathlib

/- Shallow embedding of the quizapp-socket session coordinator.

   The repository contains four revisions of the same single-file server:
   - src/server.ts        : base revision (no score field);
   - src/unnamed/part_000 : adds `score` and the `update_score` handler;
   - src/unnamed/part_001 : adds `adminToken`, `user_id` and `admin_end_quiz`
     (its second half is a logging variant of the two-index revision);
   - src/unnamed/part_002 : two-index revision (`activeSessionsByQuizId` /
     `activeSessionsByRoomCode`) with a separate `join_game` handler.

   Namespaces `Quiz000`, `Quiz001` and `Quiz002` embed the revisions the
   claims cite.  Modelling conventions:
   - JS objects keyed by strings become insertion-ordered association lists
     (property write keeps the position of an existing key and appends a new
     key, as JS objects do);
   - Node `setTimeout` handles become an explicit list of pending timers with
     numeric ids; `clearTimeout` removes the timer with the stored id;
     overwriting `session.cleanupTimeout` does NOT cancel the previously
     scheduled timer, exactly as in Node;
   - `Math.random()` draws become an explicit stream of `Fin 34` indexes;
   - `socket.emit` / `socket.to(room).emit` / `io.to(room).emit` and the
     results-sink `fetch` become entries of an explicit event list;
   - the outcome of the external results sink is a nondeterministic
     parameter of the `admin_end_quiz` step. -/

/-- Association-list lookup: the first entry carrying the key (a JS property
    read on a string-keyed object). -/
def lookupA {α : Type} (l : List (String × α)) (k : String) : Option α :=
  (l.find? (fun p => p.1 == k)).map (fun p => p.2)

/-- Association-list write (JS property assignment): an existing key keeps
    its position, a new key is appended, matching JS object key order. -/
def insertA {α : Type} (l : List (String × α)) (k : String) (v : α) :
    List (String × α) :=
  if (l.find? (fun p => p.1 == k)).isSome then
    l.map (fun p => if p.1 == k then (k, v) else p)
  else l ++ [(k, v)]

/-- Association-list delete (JS `delete obj[k]`). -/
def eraseA {α : Type} (l : List (String × α)) (k : String) : List (String × α) :=
  l.filter (fun p => p.1 != k)

/-- The fixed 34-symbol room-code alphabet
    (`const chars = 'ABCDEFGHIJKLMNPQRSTUVWXYZ123456789'`). -/
def roomCodeChars : List Char := "ABCDEFGHIJKLMNPQRSTUVWXYZ123456789".toList

/-- One random draw: `chars.charAt(Math.floor(Math.random() * chars.length))`.
    The floor of a uniform draw scaled by 34 is an index below 34, so the
    draw is a `Fin 34`; `getD` never takes its default. -/
def pickChar (i : Fin 34) : Char := roomCodeChars.getD i.val 'A'

/-- The candidate code built from six draws (the `for` loop of the source). -/
def codeOf (a b c d e f : Fin 34) : String :=
  String.mk [pickChar a, pickChar b, pickChar c, pickChar d, pickChar e, pickChar f]

/-- The `generateRoomCode` recursion: draw six symbols, and if the candidate collides with
    the in-use predicate supplied by the registry, retry on the rest of the
    random stream (the source's unbounded recursion; an exhausted explicit
    stream returns `none`). -/
def generateRoomCode (inUse : String → Bool) : List (Fin 34) → Option String
  | a :: b :: c :: d :: e :: f :: rest =>
      if inUse (codeOf a b c d e f) then generateRoomCode inUse rest
      else some (codeOf a b c d e f)
  | _ => none

theorem pickChar_mem : ∀ i : Fin 34, pickChar i ∈ roomCodeChars := by decide

theorem codeOf_length (a b c d e f : Fin 34) : (codeOf a b c d e f).length = 6 := rfl

theorem codeOf_chars (a b c d e f : Fin 34) :
    ∀ ch ∈ (codeOf a b c d e f).toList, ch ∈ roomCodeChars := by
  intro ch hch
  have h : ch = pickChar a ∨ ch = pickChar b ∨ ch = pickChar c ∨ ch = pickChar d ∨
      ch = pickChar e ∨ ch = pickChar f := by
    simpa [codeOf, String.toList] using hch
  rcases h with h | h | h | h | h | h <;> (subst h; exact pickChar_mem _)

/-- Every code the generator returns is 6 alphabet symbols long and is not in
    use at the moment of the final draw. -/
theorem generateRoomCode_sound (inUse : String → Bool) :
    ∀ (n : Nat) (cs : List (Fin 34)), cs.length ≤ n → ∀ c : String,
      generateRoomCode inUse cs = some c →
      c.length = 6 ∧ (∀ ch ∈ c.toList, ch ∈ roomCodeChars) ∧ inUse c = false := by
  intro n
  induction n with
  | zero =>
      intro cs hl c hc
      rcases cs with _ | ⟨a, cs⟩
      · simp [generateRoomCode] at hc
      · simp at hl
  | succ n ih =>
      intro cs hl c hc
      rcases cs with _ | ⟨a, _ | ⟨b, _ | ⟨c1, _ | ⟨d, _ | ⟨e, _ | ⟨f, rest⟩⟩⟩⟩⟩⟩ <;>
        try simp [generateRoomCode] at hc
      by_cases hu : inUse (codeOf a b c1 d e f)
      · have hc' : generateRoomCode inUse rest = some c := by
          simpa [generateRoomCode, hu] using hc
        have hlen : rest.length ≤ n := by
          simp [List.length] at hl; omega
        exact ih rest hlen c hc'
      · have hc' : c = codeOf a b c1 d e f := by
          have := hc
          simp [generateRoomCode, hu] at this
          exact this.symm
        subst hc'
        exact ⟨codeOf_length _ _ _ _ _ _, codeOf_chars _ _ _ _ _ _, by simpa using hu⟩

/-- If the next six draws spell an unused code, the generator terminates at
    once with that code. -/
theorem generateRoomCode_hits (inUse : String → Bool) (a b c d e f : Fin 34)
    (h : inUse (codeOf a b c d e f) = false) :
    generateRoomCode inUse [a, b, c, d, e, f] = some (codeOf a b c d e f) := by
  simp [generateRoomCode, h]

namespace Quiz001

/- Embedding of src/unnamed/part_001 (first half): the revision with
   `adminToken`, `user_id` and the `admin_end_quiz` handler.  The registry is
   the single string-keyed object `activeSessions` indexed by quiz id. -/

/-- The `PlayerData` interface, plus the `role` property that the JS reads
    dynamically from the caller-supplied object (`playerInfo.role` and
    `session.players[socket.id].role`) although the TS interface omits it. -/
structure Player where
  x : Int
  y : Int
  character : String
  username : String
  score : Int
  user_id : Int
  role : Option String
deriving DecidableEq, Repr

/-- The caller-supplied `playerInfo` payload of `request_session`. -/
structure JoinInfo where
  x : Int
  y : Int
  character : String
  username : String
  user_id : Int
  role : Option String
deriving DecidableEq, Repr

/-- The assignment `{ ...playerInfo, score: 0 }`: every payload field is copied verbatim and
    the score is forced to zero. -/
def mkPlayer (i : JoinInfo) : Player :=
  ⟨i.x, i.y, i.character, i.username, 0, i.user_id, i.role⟩

structure Session where
  roomCode : String
  quizId : String
  players : List (String × Player)
  adminToken : Option String
  cleanupTimeout : Option Nat
deriving DecidableEq, Repr

/-- A pending Node timeout: its handle, the `quizId` string captured by the
    cleanup closure, and the delay it was scheduled with. -/
structure PendingTimer where
  id : Nat
  quizId : String
  delayMs : Nat
deriving DecidableEq, Repr

structure State where
  sessions : List (String × Session)
  timers : List PendingTimer
  nextTimer : Nat
deriving DecidableEq, Repr

def init : State := ⟨[], [], 0⟩

/-- Observable effects: socket.io emits (the recipient discipline of each
    constructor mirrors `socket.emit` = caller only, `socket.to(room)` = room
    minus sender, `io.to(room)` = whole room) and the results-sink `fetch`. -/
inductive Event where
  | session_ready (caller quizId roomCode : String)
      (players : List (String × Player)) (ownSocketId : String)
  | new_player (roomCode sender playerId : String) (info : Player)
  | leaderboard_update (roomCode : String) (roster : List Player)
  | player_moved (roomCode sender playerId : String) (x y : Int)
  | player_disconnected (roomCode playerId : String)
  | quiz_ended (roomCode message : String)
  | error_ending_quiz (caller message : String)
  | sink_call (quizId : String) (leaderboard : List Player) (bearer : Option String)
deriving DecidableEq, Repr

/-- The check `Object.values(activeSessions).some(s => s.roomCode === code)`. -/
def isCodeInUse (st : State) (code : String) : Bool :=
  st.sessions.any (fun e => e.2.roomCode == code)

/-- The scan `Object.values(activeSessions).find(s => s.roomCode === roomCode)`,
    returning the key as well so state writes can be expressed. -/
def findByRoom (st : State) (rc : String) : Option (String × Session) :=
  st.sessions.find? (fun e => e.2.roomCode == rc)

/-- The `request_session` handler.  `code` stands for the value returned by
    `generateRoomCode()` (consumed only in the create branch). -/
def requestSession (st : State) (sock quizId : String) (info : JoinInfo)
    (token : Option String) (code : String) : State × List Event :=
  -- let session = activeSessions[quizId]; if (!session) { create; insert }
  let found := lookupA st.sessions quizId
  let s0 : Session :=
    match found with
    | some s => s
    | none =>
        { roomCode := code, quizId := quizId, players := [],
          adminToken := if info.role == some "admin" then token else none,
          cleanupTimeout := none }
  let st0 : State :=
    match found with
    | some _ => st
    | none => { st with sessions := insertA st.sessions quizId s0 }
  -- if (session.cleanupTimeout) { clearTimeout(...); delete session.cleanupTimeout }
  let cancelled : Session × List PendingTimer :=
    match s0.cleanupTimeout with
    | some tid => ({ s0 with cleanupTimeout := none },
                   st0.timers.filter (fun t => t.id != tid))
    | none => (s0, st0.timers)
  -- session.players[socket.id] = { ...playerInfo, score: 0 }
  let s2 : Session := { cancelled.1 with
    players := insertA cancelled.1.players sock (mkPlayer info) }
  ({ sessions := insertA st0.sessions quizId s2,
     timers := cancelled.2, nextTimer := st0.nextTimer },
   [Event.session_ready sock quizId s2.roomCode s2.players sock,
    Event.new_player s2.roomCode sock sock (mkPlayer info),
    Event.leaderboard_update s2.roomCode (s2.players.map (fun p => p.2))])

/-- The `player_movement` handler. -/
def playerMovement (st : State) (sock rc : String) (x y : Int) :
    State × List Event :=
  match findByRoom st rc with
  | some (q, s) =>
      match lookupA s.players sock with
      | some p =>
          let s2 := { s with players := insertA s.players sock { p with x := x, y := y } }
          ({ st with sessions := insertA st.sessions q s2 },
           [Event.player_moved rc sock sock x y])
      | none => (st, [])
  | none => (st, [])

/-- The `update_score` handler: wholesale overwrite, then a roster broadcast
    to the whole room. -/
def updateScore (st : State) (sock rc : String) (score : Int) :
    State × List Event :=
  match findByRoom st rc with
  | some (q, s) =>
      match lookupA s.players sock with
      | some p =>
          let s2 := { s with players := insertA s.players sock { p with score := score } }
          ({ st with sessions := insertA st.sessions q s2 },
           [Event.leaderboard_update rc (s2.players.map (fun e => e.2))])
      | none => (st, [])
  | none => (st, [])

/-- Outcome of the external results sink (`fetch` of `/quizzes/results`):
    `ok`, a rejected response (`!response.ok`), or a thrown transport error. -/
inductive SinkOutcome where
  | ok
  | rejected (details : String)
  | transportError
deriving DecidableEq, Repr

/-- The `admin_end_quiz` handler.  The JS guard is
    `if (session && session.adminToken === token)`; strict equality on two
    `undefined` values is `true`, which the `Option` equality `==` mirrors
    (`none == none` is `true`). -/
def adminEndQuiz (st : State) (sock rc : String) (token : Option String)
    (sink : SinkOutcome) : State × List Event :=
  match findByRoom st rc with
  | some (_, s) =>
      if s.adminToken == token then
        let leaderboard := s.players.map (fun e => e.2)
        match sink with
        | SinkOutcome.ok =>
            ({ st with sessions := eraseA st.sessions s.quizId },
             [Event.sink_call s.quizId leaderboard token,
              Event.quiz_ended rc "Quiz has been ended by the admin."])
        | SinkOutcome.rejected _ =>
            (st, [Event.sink_call s.quizId leaderboard token,
                  Event.error_ending_quiz sock "Failed to save results."])
        | SinkOutcome.transportError =>
            (st, [Event.sink_call s.quizId leaderboard token,
                  Event.error_ending_quiz sock "Server error while trying to end quiz."])
      else (st, [Event.error_ending_quiz sock "Unauthorized or invalid session."])
  | none => (st, [Event.error_ending_quiz sock "Unauthorized or invalid session."])

/-- JS truthiness of `session.adminToken` (an empty string is falsy). -/
def jsTruthy : Option String → Bool
  | some t => t != ""
  | none => false

/-- The `disconnect` handler: scan `activeSessions` in insertion order for
    the first session holding the socket, clear the admin token if the
    departing player held the admin role, remove the player, and arm the
    60000 ms cleanup timer if the session drained. -/
def disconnect (st : State) (sock : String) : State × List Event :=
  match st.sessions.find? (fun e => (lookupA e.2.players sock).isSome) with
  | none => (st, [])
  | some (q, s) =>
      match lookupA s.players sock with
      | none => (st, [])
      | some pl =>
          let s1 := if jsTruthy s.adminToken && (pl.role == some "admin")
                    then { s with adminToken := none } else s
          let s2 := { s1 with players := eraseA s1.players sock }
          if s2.players.isEmpty then
            ({ sessions := insertA st.sessions q
                 { s2 with cleanupTimeout := some st.nextTimer },
               timers := st.timers ++ [⟨st.nextTimer, q, 60000⟩],
               nextTimer := st.nextTimer + 1 },
             [Event.player_disconnected s.roomCode sock])
          else
            ({ st with sessions := insertA st.sessions q s2 },
             [Event.player_disconnected s.roomCode sock,
              Event.leaderboard_update s.roomCode (s2.players.map (fun e => e.2))])

/-- A pending cleanup timer fires: `delete activeSessions[quizIdToClean]`
    for the captured quiz id.  A cancelled handle is gone from `timers`, so
    its firing is modelled nowhere; firing consumes the timer. -/
def timerFire (st : State) (tid : Nat) : State :=
  match st.timers.find? (fun t => t.id == tid) with
  | none => st
  | some t =>
      { st with sessions := eraseA st.sessions t.quizId,
                timers := st.timers.filter (fun u => u.id != tid) }

/-- One server event (the unit of the single-threaded event loop).  Room
    codes fed to session creation come from the real generator run on some
    random stream. -/
inductive Step : State → State → Prop where
  | request (st : State) (sock quizId : String) (info : JoinInfo)
      (token : Option String) (cs : List (Fin 34)) (code : String)
      (h : generateRoomCode (isCodeInUse st) cs = some code) :
      Step st (requestSession st sock quizId info token code).1
  | move (st : State) (sock rc : String) (x y : Int) :
      Step st (playerMovement st sock rc x y).1
  | score (st : State) (sock rc : String) (sc : Int) :
      Step st (updateScore st sock rc sc).1
  | endQuiz (st : State) (sock rc : String) (token : Option String)
      (sink : SinkOutcome) :
      Step st (adminEndQuiz st sock rc token sink).1
  | disc (st : State) (sock : String) :
      Step st (disconnect st sock).1
  | fire (st : State) (tid : Nat) :
      Step st (timerFire st tid)

/-- States reachable from the empty registry at process start. -/
def Reachable (st : State) : Prop := Relation.ReflTransGen Step init st

end Quiz001

namespace Quiz000

/- Embedding of src/unnamed/part_000: the revision with `score` and
   `update_score` but no admin machinery.  The registry is the single
   string-keyed object `activeSessions` indexed by quiz id; the Session
   interface here has no `quizId` field. -/

/-- The `PlayerData` interface of part_000. -/
structure Player where
  x : Int
  y : Int
  character : String
  username : String
  score : Int
deriving DecidableEq, Repr

/-- The caller-supplied `playerInfo` payload of `request_session`. -/
structure JoinInfo where
  x : Int
  y : Int
  character : String
  username : String
deriving DecidableEq, Repr

/-- The assignment `{ ...playerInfo, score: 0 }`. -/
def mkPlayer (i : JoinInfo) : Player :=
  ⟨i.x, i.y, i.character, i.username, 0⟩

structure Session where
  roomCode : String
  players : List (String × Player)
  cleanupTimeout : Option Nat
deriving DecidableEq, Repr

/-- A pending Node timeout with the quiz id its closure captured. -/
structure PendingTimer where
  id : Nat
  quizId : String
  delayMs : Nat
deriving DecidableEq, Repr

structure State where
  sessions : List (String × Session)
  timers : List PendingTimer
  nextTimer : Nat
deriving DecidableEq, Repr

def init : State := ⟨[], [], 0⟩

inductive Event where
  | session_ready (caller quizId roomCode : String)
      (players : List (String × Player)) (ownSocketId : String)
  | new_player (roomCode sender playerId : String) (info : Player)
  | leaderboard_update (roomCode : String) (roster : List Player)
  | player_moved (roomCode sender playerId : String) (x y : Int)
  | player_disconnected (roomCode playerId : String)
deriving DecidableEq, Repr

/-- The check `Object.values(activeSessions).some(s => s.roomCode === code)`. -/
def isCodeInUse (st : State) (code : String) : Bool :=
  st.sessions.any (fun e => e.2.roomCode == code)

/-- The scan `Object.values(activeSessions).find(s => s.roomCode === roomCode)`. -/
def findByRoom (st : State) (rc : String) : Option (String × Session) :=
  st.sessions.find? (fun e => e.2.roomCode == rc)

/-- The `request_session` handler of part_000; `code` is the value returned
    by `generateRoomCode()` (consumed only in the create branch). -/
def requestSession (st : State) (sock quizId : String) (info : JoinInfo)
    (code : String) : State × List Event :=
  let found := lookupA st.sessions quizId
  let s0 : Session :=
    match found with
    | some s => s
    | none => { roomCode := code, players := [], cleanupTimeout := none }
  let st0 : State :=
    match found with
    | some _ => st
    | none => { st with sessions := insertA st.sessions quizId s0 }
  let cancelled : Session × List PendingTimer :=
    match s0.cleanupTimeout with
    | some tid => ({ s0 with cleanupTimeout := none },
                   st0.timers.filter (fun t => t.id != tid))
    | none => (s0, st0.timers)
  let s2 : Session := { cancelled.1 with
    players := insertA cancelled.1.players sock (mkPlayer info) }
  ({ sessions := insertA st0.sessions quizId s2,
     timers := cancelled.2, nextTimer := st0.nextTimer },
   [Event.session_ready sock quizId s2.roomCode s2.players sock,
    Event.new_player s2.roomCode sock sock (mkPlayer info),
    Event.leaderboard_update s2.roomCode (s2.players.map (fun p => p.2))])

/-- The `player_movement` handler of part_000. -/
def playerMovement (st : State) (sock rc : String) (x y : Int) :
    State × List Event :=
  match findByRoom st rc with
  | some (q, s) =>
      match lookupA s.players sock with
      | some p =>
          let s2 := { s with players := insertA s.players sock { p with x := x, y := y } }
          ({ st with sessions := insertA st.sessions q s2 },
           [Event.player_moved rc sock sock x y])
      | none => (st, [])
  | none => (st, [])

/-- The `update_score` handler of part_000: wholesale overwrite of the
    stored score, then `io.to(roomCode)` roster broadcast. -/
def updateScore (st : State) (sock rc : String) (score : Int) :
    State × List Event :=
  match findByRoom st rc with
  | some (q, s) =>
      match lookupA s.players sock with
      | some p =>
          let s2 := { s with players := insertA s.players sock { p with score := score } }
          ({ st with sessions := insertA st.sessions q s2 },
           [Event.leaderboard_update rc (s2.players.map (fun e => e.2))])
      | none => (st, [])
  | none => (st, [])

/-- The `disconnect` handler of part_000. -/
def disconnect (st : State) (sock : String) : State × List Event :=
  match st.sessions.find? (fun e => (lookupA e.2.players sock).isSome) with
  | none => (st, [])
  | some (q, s) =>
      let s2 := { s with players := eraseA s.players sock }
      if s2.players.isEmpty then
        ({ sessions := insertA st.sessions q
             { s2 with cleanupTimeout := some st.nextTimer },
           timers := st.timers ++ [⟨st.nextTimer, q, 60000⟩],
           nextTimer := st.nextTimer + 1 },
         [Event.player_disconnected s.roomCode sock])
      else
        ({ st with sessions := insertA st.sessions q s2 },
         [Event.player_disconnected s.roomCode sock,
          Event.leaderboard_update s.roomCode (s2.players.map (fun e => e.2))])

/-- A pending cleanup timer fires: `delete activeSessions[quizIdToClean]`. -/
def timerFire (st : State) (tid : Nat) : State :=
  match st.timers.find? (fun t => t.id == tid) with
  | none => st
  | some t =>
      { st with sessions := eraseA st.sessions t.quizId,
                timers := st.timers.filter (fun u => u.id != tid) }

end Quiz000

namespace Quiz002

/- Embedding of src/unnamed/part_002: the two-index revision.  Both
   `activeSessionsByQuizId` and `activeSessionsByRoomCode` hold references to
   the same mutable session object; the model makes the sharing explicit with
   a heap of session records addressed by allocation index, the two
   dictionaries mapping strings to heap addresses. -/

/-- The `PlayerData` interface of part_002. -/
structure Player where
  x : Int
  y : Int
  character : String
  username : String
deriving DecidableEq, Repr

structure Session where
  roomCode : String
  players : List (String × Player)
  quizId : String
  cleanupTimeout : Option Nat
deriving DecidableEq, Repr

/-- A pending Node timeout; its closure captured the session object itself,
    modelled as the heap address. -/
structure PendingTimer where
  id : Nat
  ref : Nat
  delayMs : Nat
deriving DecidableEq, Repr

structure State where
  heap : List Session
  byQuizId : List (String × Nat)
  byRoomCode : List (String × Nat)
  timers : List PendingTimer
  nextTimer : Nat
deriving DecidableEq, Repr

def init : State := ⟨[], [], [], [], 0⟩

/-- Dereference a heap address (total, with a dummy session that no
    reachable dictionary entry ever points at). -/
def heapGet (h : List Session) (r : Nat) : Session :=
  h.getD r ⟨"", [], "", none⟩

inductive Event where
  | session_created (caller roomCode : String)
  | error_room_not_found (caller : String)
  | session_joined (caller : String) (players : List (String × Player))
      (ownSocketId : String)
  | new_player (roomCode sender playerId : String) (info : Player)
  | player_moved (roomCode sender playerId : String) (x y : Int)
  | player_disconnected (roomCode playerId : String)
deriving DecidableEq, Repr

/-- The probe `activeSessionsByRoomCode[code] ? retry : code` — the in-use check of the
    part_002 generator. -/
def isCodeInUse (st : State) (code : String) : Bool :=
  (lookupA st.byRoomCode code).isSome

/-- The `request_session` handler of part_002: find-or-create (inserting
    into BOTH dictionaries), cancel a pending cleanup, and reply with the
    room code.  It does not join the caller; `join_game` does. -/
def requestSession (st : State) (sock quizId code : String) :
    State × List Event :=
  let found := lookupA st.byQuizId quizId
  let ref : Nat :=
    match found with
    | some r => r
    | none => st.heap.length
  let st0 : State :=
    match found with
    | some _ => st
    | none =>
        { st with heap := st.heap ++ [⟨code, [], quizId, none⟩],
                  byQuizId := insertA st.byQuizId quizId ref,
                  byRoomCode := insertA st.byRoomCode code ref }
  let s := heapGet st0.heap ref
  let st1 : State :=
    match s.cleanupTimeout with
    | some tid =>
        { st0 with heap := st0.heap.set ref { s with cleanupTimeout := none },
                   timers := st0.timers.filter (fun t => t.id != tid) }
    | none => st0
  (st1, [Event.session_created sock (heapGet st1.heap ref).roomCode])

/-- The `join_game` handler of part_002: resolve the room code, add the
    caller-supplied player info verbatim.  Note: it does NOT touch
    `cleanupTimeout`. -/
def joinGame (st : State) (sock rc : String) (info : Player) :
    State × List Event :=
  match lookupA st.byRoomCode rc with
  | none => (st, [Event.error_room_not_found sock])
  | some ref =>
      let s := heapGet st.heap ref
      let s2 := { s with players := insertA s.players sock info }
      ({ st with heap := st.heap.set ref s2 },
       [Event.session_joined sock s2.players sock,
        Event.new_player rc sock sock info])

/-- The `player_movement` handler of part_002. -/
def playerMovement (st : State) (sock rc : String) (x y : Int) :
    State × List Event :=
  match lookupA st.byRoomCode rc with
  | none => (st, [])
  | some ref =>
      let s := heapGet st.heap ref
      match lookupA s.players sock with
      | some p =>
          let s2 := { s with players := insertA s.players sock { p with x := x, y := y } }
          ({ st with heap := st.heap.set ref s2 },
           [Event.player_moved rc sock sock x y])
      | none => (st, [])

/-- The `disconnect` handler of part_002: scan `activeSessionsByRoomCode` in
    key order for the first session holding the socket, remove the player,
    and if the session drained, arm a 60000 ms cleanup timer whose closure
    captures the session object. -/
def disconnect (st : State) (sock : String) : State × List Event :=
  match st.byRoomCode.find?
      (fun e => (lookupA (heapGet st.heap e.2).players sock).isSome) with
  | none => (st, [])
  | some (rc, ref) =>
      let s := heapGet st.heap ref
      let s2 := { s with players := eraseA s.players sock }
      if s2.players.isEmpty then
        let s3 := { s2 with cleanupTimeout := some st.nextTimer }
        ({ st with heap := st.heap.set ref s3,
                   timers := st.timers ++ [⟨st.nextTimer, ref, 60000⟩],
                   nextTimer := st.nextTimer + 1 },
         [Event.player_disconnected rc sock])
      else
        ({ st with heap := st.heap.set ref s2 },
         [Event.player_disconnected rc sock])

/-- A pending cleanup timer fires:
    `delete activeSessionsByQuizId[session.quizId]` and
    `delete activeSessionsByRoomCode[session.roomCode]`, reading both keys
    from the captured session object at firing time. -/
def timerFire (st : State) (tid : Nat) : State :=
  match st.timers.find? (fun t => t.id == tid) with
  | none => st
  | some t =>
      let s := heapGet st.heap t.ref
      { st with byQuizId := eraseA st.byQuizId s.quizId,
                byRoomCode := eraseA st.byRoomCode s.roomCode,
                timers := st.timers.filter (fun u => u.id != tid) }

/-- One server event of the part_002 revision. -/
inductive Step : State → State → Prop where
  | request (st : State) (sock quizId : String) (cs : List (Fin 34))
      (code : String) (h : generateRoomCode (isCodeInUse st) cs = some code) :
      Step st (requestSession st sock quizId code).1
  | join (st : State) (sock rc : String) (info : Player) :
      Step st (joinGame st sock rc info).1
  | move (st : State) (sock rc : String) (x y : Int) :
      Step st (playerMovement st sock rc x y).1
  | disc (st : State) (sock : String) :
      Step st (disconnect st sock).1
  | fire (st : State) (tid : Nat) :
      Step st (timerFire st tid)

/-- States reachable from the empty registry at process start. -/
def Reachable (st : State) : Prop := Relation.ReflTransGen Step init st

end Quiz002

/- ------------------------------------------------------------------ -/
/- Claim C1 (src/unnamed/part_001, admin_end_quiz authorization)      -/
/- ------------------------------------------------------------------ -/

/-- A non-admin joiner: `role` is absent, so session creation binds no
    admin token. -/
def c1info : Quiz001.JoinInfo :=
  { x := 0, y := 0, character := "mage", username := "alice",
    user_id := 7, role := none }

/-- Reachable registry holding one session for quiz id `quiz1`, room code
    `ABCDEF`, created by the non-admin socket `A`: `adminToken` is absent. -/
def c1state : Quiz001.State :=
  (Quiz001.requestSession Quiz001.init "A" "quiz1" c1info none "ABCDEF").1

/-- The finalize request of the counterexample: socket `B` sends
    `admin_end_quiz` with no `token` field (an absent payload property is
    `undefined`). -/
def c1result : Quiz001.State × List Quiz001.Event :=
  Quiz001.adminEndQuiz c1state "B" "ABCDEF" none Quiz001.SinkOutcome.ok

/-- C1: refuted on the code.  The claim says a finalize whose caller token
    does not match a PRESENT bound admin token — in particular any finalize
    against a session whose `adminToken` is absent — signals
    `error_ending_quiz` only, never calls the results sink, and leaves the
    registry unchanged.  In the code the guard is
    `session.adminToken === token`, and `undefined === undefined` is `true`:
    in the reachable state `c1state` (one session for `quiz1`, admin token
    absent), a caller that simply omits `token` is AUTHORIZED — the sink is
    called, `quiz_ended` is broadcast, and the session is destroyed. -/
theorem claim_C1_absent_token_finalizes :
    Quiz001.Reachable c1state ∧
    (lookupA c1state.sessions "quiz1").map Quiz001.Session.adminToken =
      some none ∧
    c1result.2 =
      [Quiz001.Event.sink_call "quiz1" [Quiz001.mkPlayer c1info] none,
       Quiz001.Event.quiz_ended "ABCDEF" "Quiz has been ended by the admin."] ∧
    lookupA c1result.1.sessions "quiz1" = none := by
  refine ⟨?_, by decide, by decide, by decide⟩
  exact Relation.ReflTransGen.single
    (Quiz001.Step.request Quiz001.init "A" "quiz1" c1info none
      [0, 1, 2, 3, 4, 5] "ABCDEF" (by decide))

/- ------------------------------------------------------------------ -/
/- Claim C2 (src/unnamed/part_002, pendingEviction vs participants)   -/
/- ------------------------------------------------------------------ -/

def c2alice : Quiz002.Player :=
  { x := 0, y := 0, character := "mage", username := "alice" }

def c2bob : Quiz002.Player :=
  { x := 0, y := 0, character := "rogue", username := "bob" }

/-- Trace: create a session for quiz `q` (room `ABCDEF`), let `A` join and
    disconnect — the room drains and eviction timer 0 is armed — then let
    `B` join the same room while the timer is pending. -/
def c2state : Quiz002.State :=
  (Quiz002.joinGame
    (Quiz002.disconnect
      (Quiz002.joinGame
        (Quiz002.requestSession Quiz002.init "A" "q" "ABCDEF").1
        "A" "ABCDEF" c2alice).1
      "A").1
    "B" "ABCDEF" c2bob).1

/-- The armed timer later fires although `B` is inside. -/
def c2fired : Quiz002.State := Quiz002.timerFire c2state 0

/-- C2: refuted on the code.  The claim says every join — `join_game` as
    well as `request_session` — cancels a pending eviction, making
    `pendingEviction` and non-empty participants mutually exclusive in every
    reachable state.  The `join_game` handler of part_002 never touches
    `cleanupTimeout`: in the reachable state `c2state` the session holds
    participant `B` while eviction timer 0 is still armed, and when that
    timer fires the occupied session is removed from both indexes. -/
theorem claim_C2_join_game_keeps_eviction_armed :
    Quiz002.Reachable c2state ∧
    lookupA c2state.byRoomCode "ABCDEF" = some 0 ∧
    (Quiz002.heapGet c2state.heap 0).players =
      [("B", c2bob)] ∧
    (Quiz002.heapGet c2state.heap 0).cleanupTimeout = some 0 ∧
    c2state.timers = [⟨0, 0, 60000⟩] ∧
    Quiz002.Reachable c2fired ∧
    lookupA c2fired.byQuizId "q" = none ∧
    lookupA c2fired.byRoomCode "ABCDEF" = none ∧
    (Quiz002.heapGet c2fired.heap 0).players = [("B", c2bob)] := by
  have h1 : Quiz002.Reachable c2state := by
    refine Relation.ReflTransGen.tail (Relation.ReflTransGen.tail
      (Relation.ReflTransGen.tail (Relation.ReflTransGen.single
        (Quiz002.Step.request Quiz002.init "A" "q" [0, 1, 2, 3, 4, 5]
          "ABCDEF" (by decide)))
        (Quiz002.Step.join _ "A" "ABCDEF" c2alice))
      (Quiz002.Step.disc _ "A"))
      (Quiz002.Step.join _ "B" "ABCDEF" c2bob)
  refine ⟨h1, by decide, by decide, by decide, by decide,
    Relation.ReflTransGen.tail h1 (Quiz002.Step.fire c2state 0),
    by decide, by decide, by decide⟩

/- ------------------------------------------------------------------ -/
/- Claim C3 (src/unnamed/part_002, index agreement)                   -/
/- ------------------------------------------------------------------ -/

/-- Trace reaching a state where the two indexes disagree.  Because
    `join_game` does not cancel a pending eviction (C2) and re-arming
    overwrites `session.cleanupTimeout` without clearing the previously
    scheduled Node timeout, session 0 for quiz `q` / room `ABCDEF`
    accumulates two live timers (0 and 1).  Timer 0 fires and removes both
    index entries; quiz `q` is then re-created as session 1 with fresh room
    `BCDEFG`, and quiz `q2` is created as session 2 reusing the freed code
    `ABCDEF`.  The stale timer 1 then fires and deletes key `q` (session 1's
    quiz entry) and key `ABCDEF` (session 2's room entry). -/
def c3state : Quiz002.State :=
  Quiz002.timerFire
    (Quiz002.requestSession
      (Quiz002.requestSession
        (Quiz002.timerFire
          (Quiz002.disconnect
            (Quiz002.joinGame
              (Quiz002.disconnect
                (Quiz002.joinGame
                  (Quiz002.requestSession Quiz002.init "H" "q" "ABCDEF").1
                  "A" "ABCDEF" c2alice).1
                "A").1
              "B" "ABCDEF" c2bob).1
            "B").1
          0)
        "H" "q" "BCDEFG").1
      "H" "q2" "ABCDEF").1
    1

/-- C3: refuted on the code.  The claim says that in every reachable state
    every session present in one index is present in the other.  In the
    reachable state `c3state`, `byQuizId` holds only quiz `q2` pointing at
    session 2 (room code `ABCDEF`) while `byRoomCode` has no entry for
    `ABCDEF`, and `byRoomCode` holds only room `BCDEFG` pointing at session 1
    (quiz `q`) while `byQuizId` has no entry for `q`: each surviving entry is
    in one index only. -/
theorem claim_C3_indexes_disagree :
    Quiz002.Reachable c3state ∧
    c3state.byQuizId = [("q2", 2)] ∧
    c3state.byRoomCode = [("BCDEFG", 1)] ∧
    (Quiz002.heapGet c3state.heap 2).roomCode = "ABCDEF" ∧
    lookupA c3state.byRoomCode "ABCDEF" = none ∧
    (Quiz002.heapGet c3state.heap 1).quizId = "q" ∧
    lookupA c3state.byQuizId "q" = none := by
  have h1 : Quiz002.Reachable c3state := by
    refine Relation.ReflTransGen.tail (Relation.ReflTransGen.tail
      (Relation.ReflTransGen.tail (Relation.ReflTransGen.tail
        (Relation.ReflTransGen.tail (Relation.ReflTransGen.tail
          (Relation.ReflTransGen.tail (Relation.ReflTransGen.tail
            (Relation.ReflTransGen.single
              (Quiz002.Step.request Quiz002.init "H" "q" [0, 1, 2, 3, 4, 5]
                "ABCDEF" (by decide)))
            (Quiz002.Step.join _ "A" "ABCDEF" c2alice))
          (Quiz002.Step.disc _ "A"))
        (Quiz002.Step.join _ "B" "ABCDEF" c2bob))
      (Quiz002.Step.disc _ "B"))
      (Quiz002.Step.fire _ 0))
      (Quiz002.Step.request _ "H" "q" [1, 2, 3, 4, 5, 6] "BCDEFG" (by decide)))
      (Quiz002.Step.request _ "H" "q2" [0, 1, 2, 3, 4, 5] "ABCDEF" (by decide)))
      (Quiz002.Step.fire _ 1)
  exact ⟨h1, by decide, by decide, by decide, by decide, by decide, by decide⟩

/- ------------------------------------------------------------------ -/
/- Claim C4 (src/unnamed/part_001, finalize success / failure paths)  -/
/- ------------------------------------------------------------------ -/

/-- The creating admin's payload (`role: 'admin'`). -/
def c4admin : Quiz001.JoinInfo :=
  { x := 0, y := 0, character := "mage", username := "adm",
    user_id := 1, role := some "admin" }

/-- Reachable state: admin `A` creates the session for quiz `q` (room
    `ABCDEF`, admin token `tok`) and then disconnects — the token is
    cleared, the room drains, and eviction timer 0 (60000 ms) is armed. -/
def c4grace : Quiz001.State :=
  (Quiz001.disconnect
    (Quiz001.requestSession Quiz001.init "A" "q" c4admin (some "tok")
      "ABCDEF").1
    "A").1

/-- Socket `B` finalizes the in-grace session (authorized through the
    absent-token comparison, see C1) and the sink reports success. -/
def c4ended : Quiz001.State :=
  (Quiz001.adminEndQuiz c4grace "B" "ABCDEF" none Quiz001.SinkOutcome.ok).1

/-- Quiz `q` is then re-created for a fresh participant `C` ... -/
def c4rejoined : Quiz001.State :=
  (Quiz001.requestSession c4ended "C" "q" c1info none "BCDEFG").1

/-- Finally the timer that finalization failed to cancel fires. -/
def c4stale : Quiz001.State := Quiz001.timerFire c4rejoined 0

/-- C4: refuted on the code.  The claim says a finalize that passes
    authorization and whose sink call succeeds destroys the session "with
    any pending eviction timer cancelled".  The success branch of
    `admin_end_quiz` only runs `delete activeSessions[session.quizId]` — it
    never calls `clearTimeout`.  In the reachable grace state `c4grace`
    (eviction timer 0 armed), finalization succeeds, broadcasts exactly one
    `quiz_ended`, and removes the session, but timer 0 is still pending
    (`c4ended.timers` is non-empty); after quiz `q` is re-created for
    participant `C`, the stale timer fires and destroys the successor
    session. -/
theorem claim_C4_finalize_leaves_timer_dangling :
    Quiz001.Reachable c4grace ∧
    (lookupA c4grace.sessions "q").map Quiz001.Session.cleanupTimeout =
      some (some 0) ∧
    c4grace.timers = [⟨0, "q", 60000⟩] ∧
    (Quiz001.adminEndQuiz c4grace "B" "ABCDEF" none Quiz001.SinkOutcome.ok).2 =
      [Quiz001.Event.sink_call "q" [] none,
       Quiz001.Event.quiz_ended "ABCDEF" "Quiz has been ended by the admin."] ∧
    lookupA c4ended.sessions "q" = none ∧
    c4ended.timers = [⟨0, "q", 60000⟩] ∧
    (lookupA c4rejoined.sessions "q").map
      (fun s => s.players.map (fun e => e.1)) = some ["C"] ∧
    lookupA c4stale.sessions "q" = none ∧
    Quiz001.Reachable c4stale := by
  have h1 : Quiz001.Reachable c4grace := by
    refine Relation.ReflTransGen.tail (Relation.ReflTransGen.single
      (Quiz001.Step.request Quiz001.init "A" "q" c4admin (some "tok")
        [0, 1, 2, 3, 4, 5] "ABCDEF" (by decide)))
      (Quiz001.Step.disc _ "A")
  have h2 : Quiz001.Reachable c4stale := by
    refine Relation.ReflTransGen.tail (Relation.ReflTransGen.tail
      (Relation.ReflTransGen.tail h1
        (Quiz001.Step.endQuiz c4grace "B" "ABCDEF" none Quiz001.SinkOutcome.ok))
      (Quiz001.Step.request c4ended "C" "q" c1info none [1, 2, 3, 4, 5, 6]
        "BCDEFG" (by decide)))
      (Quiz001.Step.fire c4rejoined 0)
  exact ⟨h1, by decide, by decide, by decide, by decide, by decide,
    by decide, by decide, h2⟩

/- ------------------------------------------------------------------ -/
/- Association-list lemmas                                            -/
/- ------------------------------------------------------------------ -/

theorem lookupA_insertA_self {α : Type} (l : List (String × α)) (k : String) (v : α) :
    lookupA (insertA l k v) k = some v := by
  unfold lookupA insertA
  by_cases h : (l.find? (fun p => p.1 == k)).isSome
  · rw [if_pos h, List.find?_map]
    have hext : ((fun p : String × α => p.1 == k) ∘
        fun p : String × α => if p.1 == k then (k, v) else p) =
        fun p : String × α => p.1 == k := by
      funext p
      by_cases hp : p.1 = k <;> simp [hp]
    rw [hext]
    obtain ⟨w, hw⟩ := Option.isSome_iff_exists.mp h
    have hwk := List.find?_some hw
    have hwk' : w.1 = k := by simpa using hwk
    rw [hw]
    simp [hwk']
  · rw [if_neg h, List.find?_append]
    rw [Option.not_isSome_iff_eq_none.mp h]
    simp

theorem lookupA_insertA_ne {α : Type} (l : List (String × α)) (k k' : String)
    (v : α) (h : k' ≠ k) : lookupA (insertA l k v) k' = lookupA l k' := by
  unfold lookupA insertA
  by_cases hs : (l.find? (fun p => p.1 == k)).isSome
  · rw [if_pos hs, List.find?_map]
    have hext : ((fun p : String × α => p.1 == k') ∘
        fun p : String × α => if p.1 == k then (k, v) else p) =
        fun p : String × α => p.1 == k' := by
      funext p
      by_cases hp : p.1 = k
      · simp [hp, fun hc : k = k' => h hc.symm]
      · simp [hp]
    rw [hext]
    cases hf : l.find? (fun p => p.1 == k') with
    | none => simp
    | some w =>
        have hwk := List.find?_some hf
        have hwk' : w.1 = k' := by simpa using hwk
        have hwne : ¬ w.1 = k := by
          rw [hwk']
          exact h
        simp [hwne]
  · rw [if_neg hs, List.find?_append]
    cases hf : l.find? (fun p => p.1 == k') with
    | none =>
        have hkk : (k == k') = false := by simpa using fun hc : k = k' => h hc.symm
        simp [hkk]
    | some w => simp

theorem lookupA_eraseA_self {α : Type} (l : List (String × α)) (k : String) :
    lookupA (eraseA l k) k = none := by
  unfold lookupA eraseA
  rw [List.find?_filter]
  have : l.find? (fun a => a.1 != k ∧ a.1 == k) = none := by
    rw [List.find?_eq_none]
    intro x _
    simp
  rw [this]
  rfl

theorem mem_eraseA {α : Type} {l : List (String × α)} {k : String}
    {e : String × α} (h : e ∈ eraseA l k) : e ∈ l ∧ e.1 ≠ k := by
  have h' := List.mem_filter.mp h
  refine ⟨h'.1, ?_⟩
  simpa using h'.2

theorem insertA_nil {α : Type} (k : String) (v : α) :
    insertA ([] : List (String × α)) k v = [(k, v)] := rfl

/- ------------------------------------------------------------------ -/
/- Claim C5 (src/unnamed/part_000, cleanup state machine)             -/
/- ------------------------------------------------------------------ -/

/-- C5: confirmed on part_000.  (a) The disconnect that drains the last
    participant arms the eviction timer with a 60000 ms delay and stores the
    handle on the session.  (b) A `request_session` join for the same quiz id
    while eviction is armed clears the handle, removes the pending timer
    (so its later firing is a no-op) and reuses the session with its room
    code unchanged.  (c) With no intervening join the firing timer makes the
    session unresolvable both by quiz id and by room-code scan (part_000
    realizes both lookups over the single `activeSessions` table; the
    room-code uniqueness hypothesis discharges the scan).  (d) A subsequent
    request for that quiz id creates a brand-new empty session around the
    freshly drawn code. -/
theorem claim_C5_cleanup_state_machine :
    (∀ (st : Quiz000.State) (sock q : String) (s : Quiz000.Session),
      st.sessions.find? (fun e => (lookupA e.2.players sock).isSome) = some (q, s) →
      eraseA s.players sock = [] →
      lookupA (Quiz000.disconnect st sock).1.sessions q =
        some { roomCode := s.roomCode, players := [],
               cleanupTimeout := some st.nextTimer } ∧
      (⟨st.nextTimer, q, 60000⟩ : Quiz000.PendingTimer) ∈
        (Quiz000.disconnect st sock).1.timers) ∧
    (∀ (st : Quiz000.State) (sock q : String) (info : Quiz000.JoinInfo)
        (code : String) (s : Quiz000.Session) (tid : Nat),
      lookupA st.sessions q = some s →
      s.cleanupTimeout = some tid →
      lookupA (Quiz000.requestSession st sock q info code).1.sessions q =
        some { roomCode := s.roomCode,
               players := insertA s.players sock (Quiz000.mkPlayer info),
               cleanupTimeout := none } ∧
      (∀ t ∈ (Quiz000.requestSession st sock q info code).1.timers, t.id ≠ tid) ∧
      Quiz000.timerFire (Quiz000.requestSession st sock q info code).1 tid =
        (Quiz000.requestSession st sock q info code).1) ∧
    (∀ (st : Quiz000.State) (tid : Nat) (tm : Quiz000.PendingTimer)
        (s : Quiz000.Session),
      st.timers.find? (fun t => t.id == tid) = some tm →
      lookupA st.sessions tm.quizId = some s →
      (∀ e ∈ st.sessions, e.2.roomCode = s.roomCode → e.1 = tm.quizId) →
      lookupA (Quiz000.timerFire st tid).sessions tm.quizId = none ∧
      Quiz000.findByRoom (Quiz000.timerFire st tid) s.roomCode = none) ∧
    (∀ (st : Quiz000.State) (sock q : String) (info : Quiz000.JoinInfo)
        (code : String),
      lookupA st.sessions q = none →
      lookupA (Quiz000.requestSession st sock q info code).1.sessions q =
        some { roomCode := code,
               players := [(sock, Quiz000.mkPlayer info)],
               cleanupTimeout := none }) := by
  refine ⟨?_, ?_, ?_, ?_⟩
  · intro st sock q s hf he
    constructor
    · simp only [Quiz000.disconnect, hf, he]
      simp [lookupA_insertA_self]
    · simp only [Quiz000.disconnect, hf, he]
      simp
  · intro st sock q info code s tid hl hc
    refine ⟨?_, ?_, ?_⟩
    · simp only [Quiz000.requestSession, hl, hc]
      simp [lookupA_insertA_self]
    · intro t ht
      simp only [Quiz000.requestSession, hl, hc] at ht
      have hm := List.mem_filter.mp ht
      simpa using hm.2
    · have hnone : ((Quiz000.requestSession st sock q info code).1.timers.find?
          (fun t => t.id == tid)) = none := by
        simp only [Quiz000.requestSession, hl, hc]
        rw [List.find?_filter, List.find?_eq_none]
        intro t ht
        simp
      simp only [Quiz000.timerFire, hnone]
  · intro st tid tm s hft hls huniq
    constructor
    · simp only [Quiz000.timerFire, hft]
      simp [lookupA_eraseA_self]
    · simp only [Quiz000.timerFire, hft, Quiz000.findByRoom]
      rw [List.find?_eq_none]
      intro e he2
      have hm := mem_eraseA he2
      intro hrc
      have hrc2 : e.2.roomCode = s.roomCode := by simpa using hrc
      exact hm.2 (huniq e hm.1 hrc2)
  · intro st sock q info code hl
    simp only [Quiz000.requestSession, hl]
    simp [lookupA_insertA_self, insertA_nil]

def c5player : Quiz000.Player :=
  { x := 0, y := 0, character := "mage", username := "alice", score := 3 }

def c5info : Quiz000.JoinInfo :=
  { x := 1, y := 2, character := "rogue", username := "bob" }

/-- A registry with one session for quiz `q` whose sole participant is
    socket `A`. -/
def c5stA : Quiz000.State :=
  ⟨[("q", ⟨"ABCDEF", [("A", c5player)], none⟩)], [], 5⟩

/-- An in-grace session: empty, eviction timer 0 armed. -/
def c5sG : Quiz000.Session := ⟨"ABCDEF", [], some 0⟩

def c5stG : Quiz000.State := ⟨[("q", c5sG)], [⟨0, "q", 60000⟩], 1⟩

theorem claim_C5_witness :
    (lookupA (Quiz000.disconnect c5stA "A").1.sessions "q" =
        some { roomCode := "ABCDEF", players := [], cleanupTimeout := some 5 } ∧
      (⟨5, "q", 60000⟩ : Quiz000.PendingTimer) ∈
        (Quiz000.disconnect c5stA "A").1.timers) ∧
    (lookupA (Quiz000.requestSession c5stG "B" "q" c5info "ZZZZZZ").1.sessions "q" =
        some { roomCode := "ABCDEF",
               players := insertA c5sG.players "B" (Quiz000.mkPlayer c5info),
               cleanupTimeout := none } ∧
      (∀ t ∈ (Quiz000.requestSession c5stG "B" "q" c5info "ZZZZZZ").1.timers,
        t.id ≠ 0) ∧
      Quiz000.timerFire (Quiz000.requestSession c5stG "B" "q" c5info "ZZZZZZ").1 0 =
        (Quiz000.requestSession c5stG "B" "q" c5info "ZZZZZZ").1) ∧
    (lookupA (Quiz000.timerFire c5stG 0).sessions "q" = none ∧
      Quiz000.findByRoom (Quiz000.timerFire c5stG 0) "ABCDEF" = none) ∧
    lookupA (Quiz000.requestSession (Quiz000.timerFire c5stG 0) "C" "q" c5info
        "BCDEFG").1.sessions "q" =
      some { roomCode := "BCDEFG",
             players := [("C", Quiz000.mkPlayer c5info)],
             cleanupTimeout := none } := by
  refine ⟨?_, ?_, ?_, ?_⟩
  · exact claim_C5_cleanup_state_machine.1 c5stA "A" "q"
      ⟨"ABCDEF", [("A", c5player)], none⟩ (by decide) (by decide)
  · exact claim_C5_cleanup_state_machine.2.1 c5stG "B" "q" c5info "ZZZZZZ" c5sG 0
      (by decide) (by decide)
  · exact claim_C5_cleanup_state_machine.2.2.1 c5stG 0 ⟨0, "q", 60000⟩ c5sG
      (by decide) (by decide) (by decide)
  · exact claim_C5_cleanup_state_machine.2.2.2 (Quiz000.timerFire c5stG 0) "C" "q"
      c5info "BCDEFG" (by decide)

/- ------------------------------------------------------------------ -/
/- Claim C8 (src/unnamed/part_000, movement / score no-op policy)     -/
/- ------------------------------------------------------------------ -/

/-- C8: confirmed on part_000.  A `player_movement` or `update_score` whose
    room code resolves to no session, or whose sender is not a participant of
    the resolved session, returns the state unchanged and emits nothing (a
    silent no-op, not an error); when the sender is a participant,
    `update_score` stores `{ p with score := score }` — a wholesale
    overwrite, not an accumulation. -/
theorem claim_C8_noop_policy_and_overwrite :
    (∀ (st : Quiz000.State) (sock rc : String) (x y score : Int),
      Quiz000.findByRoom st rc = none →
      Quiz000.playerMovement st sock rc x y = (st, []) ∧
      Quiz000.updateScore st sock rc score = (st, [])) ∧
    (∀ (st : Quiz000.State) (sock rc : String) (x y score : Int)
        (q : String) (s : Quiz000.Session),
      Quiz000.findByRoom st rc = some (q, s) →
      lookupA s.players sock = none →
      Quiz000.playerMovement st sock rc x y = (st, []) ∧
      Quiz000.updateScore st sock rc score = (st, [])) ∧
    (∀ (st : Quiz000.State) (sock rc : String) (score : Int)
        (q : String) (s : Quiz000.Session) (p : Quiz000.Player),
      Quiz000.findByRoom st rc = some (q, s) →
      lookupA s.players sock = some p →
      lookupA (Quiz000.updateScore st sock rc score).1.sessions q =
        some { roomCode := s.roomCode,
               players := insertA s.players sock { p with score := score },
               cleanupTimeout := s.cleanupTimeout }) := by
  refine ⟨?_, ?_, ?_⟩
  · intro st sock rc x y score hf
    constructor
    · simp [Quiz000.playerMovement, hf]
    · simp [Quiz000.updateScore, hf]
  · intro st sock rc x y score q s hf hp
    constructor
    · simp [Quiz000.playerMovement, hf, hp]
    · simp [Quiz000.updateScore, hf, hp]
  · intro st sock rc score q s p hf hp
    simp only [Quiz000.updateScore, hf, hp]
    simp [lookupA_insertA_self]

theorem claim_C8_witness :
    (Quiz000.playerMovement c5stA "A" "NOPE" 1 2 = (c5stA, []) ∧
      Quiz000.updateScore c5stA "A" "NOPE" 9 = (c5stA, [])) ∧
    (Quiz000.playerMovement c5stA "B" "ABCDEF" 1 2 = (c5stA, []) ∧
      Quiz000.updateScore c5stA "B" "ABCDEF" 9 = (c5stA, [])) ∧
    lookupA (Quiz000.updateScore c5stA "A" "ABCDEF" 9).1.sessions "q" =
      some { roomCode := "ABCDEF",
             players := insertA [("A", c5player)] "A" { c5player with score := 9 },
             cleanupTimeout := none } := by
  refine ⟨?_, ?_, ?_⟩
  · exact claim_C8_noop_policy_and_overwrite.1 c5stA "A" "NOPE" 1 2 9 (by decide)
  · exact claim_C8_noop_policy_and_overwrite.2.1 c5stA "B" "ABCDEF" 1 2 9 "q"
      ⟨"ABCDEF", [("A", c5player)], none⟩ (by decide) (by decide)
  · exact claim_C8_noop_policy_and_overwrite.2.2 c5stA "A" "ABCDEF" 9 "q"
      ⟨"ABCDEF", [("A", c5player)], none⟩ c5player (by decide) (by decide)

/- ------------------------------------------------------------------ -/
/- Claim C9 (part_000 and part_001, score-update frame effect)        -/
/- ------------------------------------------------------------------ -/

/-- C9: confirmed on part_000 and part_001.  An `update_score` by a current
    participant emits exactly one `leaderboard_update` to the whole room
    whose roster is the post-update participants table; in that table the
    sender's entry is `{ p with score := score }` (all non-score fields
    unchanged) and the entry of every other key is untouched. -/
theorem claim_C9_score_update_frame_effect :
    (∀ (st : Quiz000.State) (sock rc : String) (score : Int)
        (q : String) (s : Quiz000.Session) (p : Quiz000.Player),
      Quiz000.findByRoom st rc = some (q, s) →
      lookupA s.players sock = some p →
      (Quiz000.updateScore st sock rc score).2 =
        [Quiz000.Event.leaderboard_update rc
          ((insertA s.players sock { p with score := score }).map (fun e => e.2))] ∧
      lookupA (insertA s.players sock { p with score := score }) sock =
        some { p with score := score } ∧
      (∀ k, k ≠ sock →
        lookupA (insertA s.players sock { p with score := score }) k =
          lookupA s.players k)) ∧
    (∀ (st : Quiz001.State) (sock rc : String) (score : Int)
        (q : String) (s : Quiz001.Session) (p : Quiz001.Player),
      Quiz001.findByRoom st rc = some (q, s) →
      lookupA s.players sock = some p →
      (Quiz001.updateScore st sock rc score).2 =
        [Quiz001.Event.leaderboard_update rc
          ((insertA s.players sock { p with score := score }).map (fun e => e.2))] ∧
      lookupA (insertA s.players sock { p with score := score }) sock =
        some { p with score := score } ∧
      (∀ k, k ≠ sock →
        lookupA (insertA s.players sock { p with score := score }) k =
          lookupA s.players k)) := by
  constructor
  · intro st sock rc score q s p hf hp
    refine ⟨?_, lookupA_insertA_self _ _ _, fun k hk => lookupA_insertA_ne _ _ _ _ hk⟩
    simp [Quiz000.updateScore, hf, hp]
  · intro st sock rc score q s p hf hp
    refine ⟨?_, lookupA_insertA_self _ _ _, fun k hk => lookupA_insertA_ne _ _ _ _ hk⟩
    simp [Quiz001.updateScore, hf, hp]

/-- Two-player session for the C9 witness (part_000). -/
def c9stA : Quiz000.State :=
  ⟨[("q", ⟨"ABCDEF", [("A", c5player), ("B", ⟨4, 5, "cleric", "carol", 11⟩)],
     none⟩)], [], 0⟩

/-- Two-player session for the C9 witness (part_001). -/
def c9player1 : Quiz001.Player :=
  { x := 0, y := 0, character := "mage", username := "alice", score := 3,
    user_id := 7, role := none }

def c9player2 : Quiz001.Player :=
  { x := 4, y := 5, character := "cleric", username := "carol", score := 11,
    user_id := 8, role := none }

def c9stB : Quiz001.State :=
  ⟨[("q", ⟨"ABCDEF", "q", [("A", c9player1), ("B", c9player2)], none, none⟩)],
   [], 0⟩

theorem claim_C9_witness :
    ((Quiz000.updateScore c9stA "A" "ABCDEF" 99).2 =
        [Quiz000.Event.leaderboard_update "ABCDEF"
          ((insertA [("A", c5player), ("B", ⟨4, 5, "cleric", "carol", 11⟩)] "A"
              { c5player with score := 99 }).map (fun e => e.2))] ∧
      lookupA (insertA [("A", c5player), ("B", ⟨4, 5, "cleric", "carol", 11⟩)] "A"
          { c5player with score := 99 }) "A" = some { c5player with score := 99 } ∧
      (∀ k, k ≠ "A" →
        lookupA (insertA [("A", c5player), ("B", ⟨4, 5, "cleric", "carol", 11⟩)] "A"
            { c5player with score := 99 }) k =
          lookupA [("A", c5player), ("B", ⟨4, 5, "cleric", "carol", 11⟩)] k)) ∧
    ((Quiz001.updateScore c9stB "A" "ABCDEF" 99).2 =
        [Quiz001.Event.leaderboard_update "ABCDEF"
          ((insertA [("A", c9player1), ("B", c9player2)] "A"
              { c9player1 with score := 99 }).map (fun e => e.2))] ∧
      lookupA (insertA [("A", c9player1), ("B", c9player2)] "A"
          { c9player1 with score := 99 }) "A" = some { c9player1 with score := 99 } ∧
      (∀ k, k ≠ "A" →
        lookupA (insertA [("A", c9player1), ("B", c9player2)] "A"
            { c9player1 with score := 99 }) k =
          lookupA [("A", c9player1), ("B", c9player2)] k)) := by
  constructor
  · exact claim_C9_score_update_frame_effect.1 c9stA "A" "ABCDEF" 99 "q"
      ⟨"ABCDEF", [("A", c5player), ("B", ⟨4, 5, "cleric", "carol", 11⟩)], none⟩
      c5player (by decide) (by decide)
  · exact claim_C9_score_update_frame_effect.2 c9stB "A" "ABCDEF" 99 "q"
      ⟨"ABCDEF", "q", [("A", c9player1), ("B", c9player2)], none, none⟩
      c9player1 (by decide) (by decide)

/- ------------------------------------------------------------------ -/
/- Claim C10 (part_000 / part_001, re-request by an existing player)  -/
/- ------------------------------------------------------------------ -/

/-- C10: confirmed on part_000 and part_001.  When a connection that is
    already in the session's roster issues `request_session` for the same
    quiz id, the assignment `session.players[socket.id] = { ...playerInfo,
    score: 0 }` wholesale-replaces its entry with the newly supplied payload:
    the new entry is `mkPlayer info` (score forced to 0, position taken from
    the new payload, the old entry nowhere consulted), and the handler runs
    the normal join path — full `session_ready` / `new_player` /
    `leaderboard_update` output, no error or duplicate-join rejection. -/
theorem claim_C10_rejoin_replaces_entry :
    (∀ (st : Quiz000.State) (sock q code : String) (info : Quiz000.JoinInfo)
        (s : Quiz000.Session) (pOld : Quiz000.Player),
      lookupA st.sessions q = some s →
      s.cleanupTimeout = none →
      lookupA s.players sock = some pOld →
      lookupA (Quiz000.requestSession st sock q info code).1.sessions q =
        some { roomCode := s.roomCode,
               players := insertA s.players sock (Quiz000.mkPlayer info),
               cleanupTimeout := none } ∧
      lookupA (insertA s.players sock (Quiz000.mkPlayer info)) sock =
        some (Quiz000.mkPlayer info) ∧
      (Quiz000.mkPlayer info).score = 0 ∧
      (Quiz000.mkPlayer info).x = info.x ∧
      (Quiz000.requestSession st sock q info code).2 =
        [Quiz000.Event.session_ready sock q s.roomCode
           (insertA s.players sock (Quiz000.mkPlayer info)) sock,
         Quiz000.Event.new_player s.roomCode sock sock (Quiz000.mkPlayer info),
         Quiz000.Event.leaderboard_update s.roomCode
           ((insertA s.players sock (Quiz000.mkPlayer info)).map (fun e => e.2))]) ∧
    (∀ (st : Quiz001.State) (sock q code : String) (info : Quiz001.JoinInfo)
        (token : Option String) (s : Quiz001.Session) (pOld : Quiz001.Player),
      lookupA st.sessions q = some s →
      s.cleanupTimeout = none →
      lookupA s.players sock = some pOld →
      lookupA (Quiz001.requestSession st sock q info token code).1.sessions q =
        some { roomCode := s.roomCode, quizId := s.quizId,
               players := insertA s.players sock (Quiz001.mkPlayer info),
               adminToken := s.adminToken, cleanupTimeout := none } ∧
      lookupA (insertA s.players sock (Quiz001.mkPlayer info)) sock =
        some (Quiz001.mkPlayer info) ∧
      (Quiz001.mkPlayer info).score = 0 ∧
      (Quiz001.mkPlayer info).x = info.x) := by
  constructor
  · intro st sock q code info s pOld hl hc hp
    refine ⟨?_, lookupA_insertA_self _ _ _, rfl, rfl, ?_⟩
    · simp only [Quiz000.requestSession, hl, hc]
      simp [lookupA_insertA_self]
    · simp [Quiz000.requestSession, hl, hc]
  · intro st sock q code info token s pOld hl hc hp
    refine ⟨?_, lookupA_insertA_self _ _ _, rfl, rfl⟩
    simp only [Quiz001.requestSession, hl, hc]
    simp [lookupA_insertA_self]

def c10info : Quiz001.JoinInfo :=
  { x := 8, y := 9, character := "bard", username := "alice2",
    user_id := 7, role := none }

theorem claim_C10_witness :
    (lookupA (Quiz000.requestSession c5stA "A" "q" c5info "ZZZZZZ").1.sessions "q" =
        some { roomCode := "ABCDEF",
               players := insertA [("A", c5player)] "A" (Quiz000.mkPlayer c5info),
               cleanupTimeout := none } ∧
      lookupA (insertA [("A", c5player)] "A" (Quiz000.mkPlayer c5info)) "A" =
        some (Quiz000.mkPlayer c5info) ∧
      (Quiz000.mkPlayer c5info).score = 0 ∧
      (Quiz000.mkPlayer c5info).x = c5info.x ∧
      (Quiz000.requestSession c5stA "A" "q" c5info "ZZZZZZ").2 =
        [Quiz000.Event.session_ready "A" "q" "ABCDEF"
           (insertA [("A", c5player)] "A" (Quiz000.mkPlayer c5info)) "A",
         Quiz000.Event.new_player "ABCDEF" "A" "A" (Quiz000.mkPlayer c5info),
         Quiz000.Event.leaderboard_update "ABCDEF"
           ((insertA [("A", c5player)] "A" (Quiz000.mkPlayer c5info)).map
             (fun e => e.2))]) ∧
    (lookupA (Quiz001.requestSession c9stB "A" "q" c10info none "ZZZZZZ").1.sessions
        "q" =
        some { roomCode := "ABCDEF", quizId := "q",
               players := insertA [("A", c9player1), ("B", c9player2)] "A"
                 (Quiz001.mkPlayer c10info),
               adminToken := none, cleanupTimeout := none } ∧
      lookupA (insertA [("A", c9player1), ("B", c9player2)] "A"
          (Quiz001.mkPlayer c10info)) "A" = some (Quiz001.mkPlayer c10info) ∧
      (Quiz001.mkPlayer c10info).score = 0 ∧
      (Quiz001.mkPlayer c10info).x = c10info.x) := by
  constructor
  · exact claim_C10_rejoin_replaces_entry.1 c5stA "A" "q" "ZZZZZZ" c5info
      ⟨"ABCDEF", [("A", c5player)], none⟩ c5player (by decide) (by decide) (by decide)
  · exact claim_C10_rejoin_replaces_entry.2 c9stB "A" "q" "ZZZZZZ" c10info none
      ⟨"ABCDEF", "q", [("A", c9player1), ("B", c9player2)], none, none⟩ c9player1
      (by decide) (by decide) (by decide)

theorem Quiz002.heapGet_concat (h : List Quiz002.Session) (s : Quiz002.Session) :
    Quiz002.heapGet (h ++ [s]) h.length = s := by
  simp [Quiz002.heapGet, List.getElem?_concat_length]

theorem Quiz002.heapGet_set_self (h : List Quiz002.Session) (r : Nat)
    (s : Quiz002.Session) (hr : r < h.length) :
    Quiz002.heapGet (h.set r s) r = s := by
  simp [Quiz002.heapGet, List.getElem?_set_self hr]

/- ------------------------------------------------------------------ -/
/- Claim C6 (part_001 / part_002, request_session find-or-create)     -/
/- ------------------------------------------------------------------ -/

/-- C6: confirmed on part_001 and part_002.  Existing session (part_001):
    the handler reuses the session — same room code, same quiz id, roster
    preserved except for the caller's own entry, `adminToken` not rebound (no
    new code consumed; the `code` argument only feeds the create branch).
    Existing session (part_002): both indexes and every session field other
    than the cleared `cleanupTimeout` are untouched, and the reply carries
    the existing room code.  Fresh quiz id (part_001): a session whose
    roster holds exactly the caller is created, `adminToken` is bound iff
    the payload declared `role: 'admin'` AND carried a token.  Fresh quiz id
    (part_002): an empty session is appended to the heap and BOTH
    dictionaries gain the entry in the same atomic step of the handler. -/
theorem claim_C6_find_or_create :
    (∀ (st : Quiz001.State) (sock q : String) (info : Quiz001.JoinInfo)
        (token : Option String) (code : String) (s : Quiz001.Session),
      lookupA st.sessions q = some s →
      lookupA (Quiz001.requestSession st sock q info token code).1.sessions q =
        some { roomCode := s.roomCode, quizId := s.quizId,
               players := insertA s.players sock (Quiz001.mkPlayer info),
               adminToken := s.adminToken, cleanupTimeout := none }) ∧
    (∀ (st : Quiz001.State) (sock q : String) (info : Quiz001.JoinInfo)
        (token : Option String) (code : String),
      lookupA st.sessions q = none →
      lookupA (Quiz001.requestSession st sock q info token code).1.sessions q =
        some { roomCode := code, quizId := q,
               players := [(sock, Quiz001.mkPlayer info)],
               adminToken := if info.role == some "admin" then token else none,
               cleanupTimeout := none } ∧
      ((if info.role == some "admin" then token else none).isSome ↔
        (info.role = some "admin" ∧ token.isSome))) ∧
    (∀ (st : Quiz002.State) (sock q code : String) (r : Nat),
      lookupA st.byQuizId q = some r →
      r < st.heap.length →
      (Quiz002.requestSession st sock q code).1.byQuizId = st.byQuizId ∧
      (Quiz002.requestSession st sock q code).1.byRoomCode = st.byRoomCode ∧
      Quiz002.heapGet (Quiz002.requestSession st sock q code).1.heap r =
        { Quiz002.heapGet st.heap r with cleanupTimeout := none } ∧
      (Quiz002.requestSession st sock q code).2 =
        [Quiz002.Event.session_created sock
          (Quiz002.heapGet st.heap r).roomCode]) ∧
    (∀ (st : Quiz002.State) (sock q code : String),
      lookupA st.byQuizId q = none →
      (Quiz002.requestSession st sock q code).1.byQuizId =
        insertA st.byQuizId q st.heap.length ∧
      (Quiz002.requestSession st sock q code).1.byRoomCode =
        insertA st.byRoomCode code st.heap.length ∧
      lookupA (Quiz002.requestSession st sock q code).1.byQuizId q =
        some st.heap.length ∧
      lookupA (Quiz002.requestSession st sock q code).1.byRoomCode code =
        some st.heap.length ∧
      Quiz002.heapGet (Quiz002.requestSession st sock q code).1.heap
        st.heap.length =
        { roomCode := code, players := [], quizId := q,
          cleanupTimeout := none } ∧
      (Quiz002.requestSession st sock q code).2 =
        [Quiz002.Event.session_created sock code]) := by
  refine ⟨?_, ?_, ?_, ?_⟩
  · intro st sock q info token code s hl
    cases hc : s.cleanupTimeout with
    | none =>
        simp only [Quiz001.requestSession, hl, hc]
        have he : ({ s with cleanupTimeout := none } : Quiz001.Session) = s := by
          rw [← hc]
        rw [← he]
        simp [lookupA_insertA_self]
    | some tid =>
        simp only [Quiz001.requestSession, hl, hc]
        simp [lookupA_insertA_self]
  · intro st sock q info token code hl
    constructor
    · simp only [Quiz001.requestSession, hl]
      simp [lookupA_insertA_self, insertA_nil]
    · by_cases hr : info.role = some "admin"
      · cases token <;> simp [hr]
      · simp [hr]
  · intro st sock q code r hl hr
    cases hc : (Quiz002.heapGet st.heap r).cleanupTimeout with
    | none =>
        have he : ({ Quiz002.heapGet st.heap r with cleanupTimeout := none } :
            Quiz002.Session) = Quiz002.heapGet st.heap r := by
          rw [← hc]
        refine ⟨?_, ?_, ?_, ?_⟩
        · simp only [Quiz002.requestSession, hl, hc]
        · simp only [Quiz002.requestSession, hl, hc]
        · simp only [Quiz002.requestSession, hl, hc]
          rw [he]
        · simp only [Quiz002.requestSession, hl, hc]
    | some tid =>
        refine ⟨?_, ?_, ?_, ?_⟩
        · simp only [Quiz002.requestSession, hl, hc]
        · simp only [Quiz002.requestSession, hl, hc]
        · simp only [Quiz002.requestSession, hl, hc]
          exact Quiz002.heapGet_set_self _ _ _ hr
        · simp only [Quiz002.requestSession, hl, hc]
          rw [Quiz002.heapGet_set_self _ _ _ hr]
  · intro st sock q code hl
    refine ⟨?_, ?_, ?_, ?_, ?_, ?_⟩
    · simp only [Quiz002.requestSession, hl, Quiz002.heapGet_concat]
    · simp only [Quiz002.requestSession, hl, Quiz002.heapGet_concat]
    · simp only [Quiz002.requestSession, hl, Quiz002.heapGet_concat]
      exact lookupA_insertA_self _ _ _
    · simp only [Quiz002.requestSession, hl, Quiz002.heapGet_concat]
      exact lookupA_insertA_self _ _ _
    · simp only [Quiz002.requestSession, hl, Quiz002.heapGet_concat]
    · simp only [Quiz002.requestSession, hl, Quiz002.heapGet_concat]

/-- A part_002 registry holding one session (heap address 0) for quiz `q`,
    room `ABCDEF`. -/
def c6st2 : Quiz002.State :=
  ⟨[⟨"ABCDEF", [], "q", none⟩], [("q", 0)], [("ABCDEF", 0)], [], 0⟩

theorem claim_C6_witness :
    lookupA (Quiz001.requestSession c9stB "C" "q" c10info (some "t")
        "ZZZZZZ").1.sessions "q" =
      some { roomCode := "ABCDEF", quizId := "q",
             players := insertA [("A", c9player1), ("B", c9player2)] "C"
               (Quiz001.mkPlayer c10info),
             adminToken := none, cleanupTimeout := none } ∧
    (lookupA (Quiz001.requestSession Quiz001.init "A" "q2" c4admin (some "tok")
        "ABCDEF").1.sessions "q2" =
      some { roomCode := "ABCDEF", quizId := "q2",
             players := [("A", Quiz001.mkPlayer c4admin)],
             adminToken := if c4admin.role == some "admin" then some "tok"
               else none,
             cleanupTimeout := none } ∧
      ((if c4admin.role == some "admin" then (some "tok" : Option String)
          else none).isSome ↔
        (c4admin.role = some "admin" ∧ (some "tok" : Option String).isSome))) ∧
    ((Quiz002.requestSession c6st2 "H" "q" "ZZZZZZ").1.byQuizId =
        c6st2.byQuizId ∧
      (Quiz002.requestSession c6st2 "H" "q" "ZZZZZZ").1.byRoomCode =
        c6st2.byRoomCode ∧
      Quiz002.heapGet (Quiz002.requestSession c6st2 "H" "q" "ZZZZZZ").1.heap 0 =
        { Quiz002.heapGet c6st2.heap 0 with cleanupTimeout := none } ∧
      (Quiz002.requestSession c6st2 "H" "q" "ZZZZZZ").2 =
        [Quiz002.Event.session_created "H"
          (Quiz002.heapGet c6st2.heap 0).roomCode]) ∧
    ((Quiz002.requestSession Quiz002.init "H" "q" "ABCDEF").1.byQuizId =
        insertA Quiz002.init.byQuizId "q" Quiz002.init.heap.length ∧
      (Quiz002.requestSession Quiz002.init "H" "q" "ABCDEF").1.byRoomCode =
        insertA Quiz002.init.byRoomCode "ABCDEF" Quiz002.init.heap.length ∧
      lookupA (Quiz002.requestSession Quiz002.init "H" "q" "ABCDEF").1.byQuizId
          "q" = some Quiz002.init.heap.length ∧
      lookupA (Quiz002.requestSession Quiz002.init "H" "q"
          "ABCDEF").1.byRoomCode "ABCDEF" = some Quiz002.init.heap.length ∧
      Quiz002.heapGet (Quiz002.requestSession Quiz002.init "H" "q"
          "ABCDEF").1.heap Quiz002.init.heap.length =
        { roomCode := "ABCDEF", players := [], quizId := "q",
          cleanupTimeout := none } ∧
      (Quiz002.requestSession Quiz002.init "H" "q" "ABCDEF").2 =
        [Quiz002.Event.session_created "H" "ABCDEF"]) := by
  refine ⟨?_, ?_, ?_, ?_⟩
  · exact claim_C6_find_or_create.1 c9stB "C" "q" c10info (some "t") "ZZZZZZ"
      ⟨"ABCDEF", "q", [("A", c9player1), ("B", c9player2)], none, none⟩ (by decide)
  · exact claim_C6_find_or_create.2.1 Quiz001.init "A" "q2" c4admin (some "tok")
      "ABCDEF" (by decide)
  · exact claim_C6_find_or_create.2.2.1 c6st2 "H" "q" "ZZZZZZ" 0 (by decide)
      (by decide)
  · exact claim_C6_find_or_create.2.2.2 Quiz002.init "H" "q" "ABCDEF" (by decide)

/- ------------------------------------------------------------------ -/
/- Claim C7 (src/server.ts and src/unnamed/part_002, generateRoomCode) -/
/- ------------------------------------------------------------------ -/

/-- C7: confirmed.  Run against either registry's in-use check (the
    `Object.values(...).some(...)` scan of the single-table revisions —
    `generateRoomCode` is textually identical in server.ts, part_000 and
    part_001 — and the `activeSessionsByRoomCode[code]` probe of part_002),
    every code the generator returns has exactly 6 characters, each from the
    fixed 34-symbol alphabet, and collides with no active session's room
    code.  Randomness is modelled as an explicit draw stream, so the
    unbounded-retry termination contract reads: whenever some 6-draw code is
    unassigned, there is a draw sequence on which the generator immediately
    terminates with it (third conjunct), and on EVERY draw stream a returned
    code satisfies the contract (first two conjuncts).  The generator reads
    the registry and returns only a string, so the registry is untouched by
    construction. -/
theorem claim_C7_room_code_allocator :
    (∀ (st : Quiz001.State) (cs : List (Fin 34)) (c : String),
      generateRoomCode (Quiz001.isCodeInUse st) cs = some c →
      c.length = 6 ∧ (∀ ch ∈ c.toList, ch ∈ roomCodeChars) ∧
      ∀ e ∈ st.sessions, e.2.roomCode ≠ c) ∧
    (∀ (st : Quiz002.State) (cs : List (Fin 34)) (c : String),
      generateRoomCode (Quiz002.isCodeInUse st) cs = some c →
      c.length = 6 ∧ (∀ ch ∈ c.toList, ch ∈ roomCodeChars) ∧
      lookupA st.byRoomCode c = none) ∧
    (∀ (inUse : String → Bool) (a b c d e f : Fin 34),
      inUse (codeOf a b c d e f) = false →
      generateRoomCode inUse [a, b, c, d, e, f] = some (codeOf a b c d e f)) := by
  refine ⟨?_, ?_, generateRoomCode_hits⟩
  · intro st cs c hc
    obtain ⟨h6, hal, hfresh⟩ :=
      generateRoomCode_sound (Quiz001.isCodeInUse st) cs.length cs le_rfl c hc
    refine ⟨h6, hal, ?_⟩
    intro e he hrc
    have : Quiz001.isCodeInUse st c = true := by
      simp only [Quiz001.isCodeInUse, List.any_eq_true]
      exact ⟨e, he, by simp [hrc]⟩
    rw [this] at hfresh
    cases hfresh
  · intro st cs c hc
    obtain ⟨h6, hal, hfresh⟩ :=
      generateRoomCode_sound (Quiz002.isCodeInUse st) cs.length cs le_rfl c hc
    refine ⟨h6, hal, ?_⟩
    have : ¬ (lookupA st.byRoomCode c).isSome := by
      simpa [Quiz002.isCodeInUse] using hfresh
    simpa [Option.not_isSome_iff_eq_none] using this

theorem claim_C7_witness :
    ("ABCDEF".length = 6 ∧ (∀ ch ∈ "ABCDEF".toList, ch ∈ roomCodeChars) ∧
      ∀ e ∈ Quiz001.init.sessions, e.2.roomCode ≠ "ABCDEF") ∧
    ("ABCDEF".length = 6 ∧ (∀ ch ∈ "ABCDEF".toList, ch ∈ roomCodeChars) ∧
      lookupA Quiz002.init.byRoomCode "ABCDEF" = none) ∧
    generateRoomCode (fun _ => false) [0, 1, 2, 3, 4, 5] =
      some (codeOf 0 1 2 3 4 5) := by
  refine ⟨?_, ?_, ?_⟩
  · exact claim_C7_room_code_allocator.1 Quiz001.init [0, 1, 2, 3, 4, 5] "ABCDEF"
      (by decide)
  · exact claim_C7_room_code_allocator.2.1 Quiz002.init [0, 1, 2, 3, 4, 5]
      "ABCDEF" (by decide)
  · exact claim_C7_room_code_allocator.2.2 (fun _ => false) 0 1 2 3 4 5 rfl
